import Mathlib

/-!
# Verification of the chat backend's real-time and message-send layer

A shallow embedding of the TypeScript chat backend:

* the session registry (`connectedUsers`, a JS `Map` from user id to socket
  id) used by `SocketService` (socketService, `part_007`);
* the socket.io authentication middleware and the HTTP `authenticateToken`
  middleware (`part_012`);
* the real-time event handlers (`connection`, `join_room`, `leave_room`,
  `send_message`, `disconnect`) as a step function over an explicit state;
* `MessageService.sendMessage` (`part_006`) and `RoomService.joinRoom`
  (`roomService.ts`) with the external collaborators (MongoDB save, Redis
  publish, RabbitMQ queue publish) modelled by explicit success flags and an
  effect trace.

Effects record each external call attempted by the code, in program order,
together with whether the external collaborator accepted it.
-/

set_option maxRecDepth 100000

deriving instance DecidableEq for Except

namespace Chat

/-- A persisted chat room (mongoose `Room` model, `part_014`):
`isPrivate` flag, owner id and member id list. -/
structure Room where
  id : String
  name : String
  isPrivate : Bool
  owner : String
  members : List String
deriving Repr, DecidableEq

/-- A persisted user, as read by `authenticateToken` via `User.findById`. -/
structure User where
  id : String
  username : String
  email : String
deriving Repr, DecidableEq

/-- `Room.findById` over the room collection. -/
def findRoom (db : List Room) (roomId : String) : Option Room :=
  db.find? (fun r => r.id == roomId)

/-- `User.findById` over the user collection. -/
def findUser (users : List User) (userId : String) : Option User :=
  users.find? (fun u => u.id == userId)

/-! ## The session registry: JS `Map` semantics

`SocketService.connectedUsers` is a JS `Map<string, string>` (userId →
socketId).  `Map.get` returns the value of the first (unique) entry for the
key; `Map.set` overwrites the entry in place or appends a new one;
`Map.delete` removes the entry for the key and is silent when absent. -/

/-- `Map.has k` / key-occurrence test. -/
def mapHas (m : List (String × String)) (k : String) : Bool :=
  match m with
  | [] => false
  | (k', _) :: t => if k' = k then true else mapHas t k

/-- `Map.get k`: value of the first entry with key `k`, if any. -/
def mapGet (m : List (String × String)) (k : String) : Option String :=
  match m with
  | [] => none
  | (k', v) :: t => if k' = k then some v else mapGet t k

/-- Overwrite every entry of key `k` with value `v`, keeping its position. -/
def mapReplace (m : List (String × String)) (k v : String) :
    List (String × String) :=
  match m with
  | [] => []
  | (k', v') :: t =>
      if k' = k then (k, v) :: mapReplace t k v
      else (k', v') :: mapReplace t k v

/-- `Map.set k v`: overwrite in place when the key is present, append a new
entry otherwise (JS `Map` insertion-order semantics). -/
def mapSet (m : List (String × String)) (k v : String) :
    List (String × String) :=
  if mapHas m k then mapReplace m k v else m ++ [(k, v)]

/-- `Map.delete k`: drop the entry for `k`; no error when absent. -/
def mapDelete (m : List (String × String)) (k : String) :
    List (String × String) :=
  match m with
  | [] => []
  | (k', v') :: t =>
      if k' = k then mapDelete t k else (k', v') :: mapDelete t k

theorem mapGet_none_of_not_has {m : List (String × String)} {k : String}
    (h : mapHas m k = false) : mapGet m k = none := by
  induction m with
  | nil => rfl
  | cons p t ih =>
      obtain ⟨k', v'⟩ := p
      by_cases hk : k' = k
      · simp [mapHas, hk] at h
      · simp [mapHas, hk] at h
        simp [mapGet, hk, ih h]

theorem mapGet_replace_self {m : List (String × String)} {k : String}
    (v : String) (h : mapHas m k = true) :
    mapGet (mapReplace m k v) k = some v := by
  induction m with
  | nil => simp [mapHas] at h
  | cons p t ih =>
      obtain ⟨k', v'⟩ := p
      by_cases hk : k' = k
      · simp [mapReplace, hk, mapGet]
      · simp [mapHas, hk] at h
        simp [mapReplace, hk, mapGet, ih h]

theorem mapGet_replace_ne {m : List (String × String)} {k k' : String}
    (v : String) (h : k' ≠ k) :
    mapGet (mapReplace m k v) k' = mapGet m k' := by
  induction m with
  | nil => rfl
  | cons p t ih =>
      obtain ⟨a, b⟩ := p
      by_cases ha : a = k
      · subst ha
        have hak : ¬a = k' := fun hh => h hh.symm
        simp [mapReplace, mapGet, hak, ih]
      · by_cases ha' : a = k'
        · simp [mapReplace, ha, mapGet, ha', h]
        · simp [mapReplace, ha, mapGet, ha', ih]

theorem mapGet_append_single_ne {m : List (String × String)} {k k' : String}
    (v : String) (h : k' ≠ k) :
    mapGet (m ++ [(k, v)]) k' = mapGet m k' := by
  induction m with
  | nil =>
      have hk : ¬k = k' := fun hh => h hh.symm
      simp [mapGet, hk]
  | cons p t ih =>
      obtain ⟨a, b⟩ := p
      by_cases ha : a = k'
      · simp [mapGet, ha]
      · simp [mapGet, ha, ih]

theorem mapGet_append_single_self {m : List (String × String)} {k : String}
    (v : String) (h : mapGet m k = none) :
    mapGet (m ++ [(k, v)]) k = some v := by
  induction m with
  | nil => simp [mapGet]
  | cons p t ih =>
      obtain ⟨a, b⟩ := p
      by_cases ha : a = k
      · simp [mapGet, ha] at h
      · simp [mapGet, ha] at h ⊢
        exact ih h

theorem mapGet_mapSet (m : List (String × String)) (k v k' : String) :
    mapGet (mapSet m k v) k' = if k' = k then some v else mapGet m k' := by
  by_cases hk : k' = k
  · subst hk
    unfold mapSet
    by_cases h : mapHas m k'
    · simp [h, mapGet_replace_self v h]
    · have h0 : mapHas m k' = false := by simpa using h
      simp [h, mapGet_append_single_self v (mapGet_none_of_not_has h0)]
  · unfold mapSet
    by_cases h : mapHas m k
    · simp [h, hk, mapGet_replace_ne v hk]
    · simp [h, hk, mapGet_append_single_ne v hk]

theorem mapGet_mapDelete (m : List (String × String)) (k k' : String) :
    mapGet (mapDelete m k) k' = if k' = k then none else mapGet m k' := by
  induction m with
  | nil => simp [mapDelete, mapGet]
  | cons p t ih =>
      obtain ⟨a, b⟩ := p
      by_cases ha : a = k
      · subst ha
        by_cases hk : k' = a
        · subst hk
          simp [mapDelete, ih]
        · have hak : ¬a = k' := fun hh => hk hh.symm
          simp [mapDelete, mapGet, hk, hak, ih]
      · by_cases ha' : a = k'
        · subst ha'
          simp [mapDelete, ha, mapGet]
        · simp [mapDelete, ha, mapGet, ha', ih]

theorem mapDelete_of_not_has {m : List (String × String)} {k : String}
    (h : mapHas m k = false) : mapDelete m k = m := by
  induction m with
  | nil => rfl
  | cons p t ih =>
      obtain ⟨a, b⟩ := p
      by_cases ha : a = k
      · simp [mapHas, ha] at h
      · simp [mapHas, ha] at h
        simp [mapDelete, ha, ih h]

/-! ## The Authentication Gate

A bearer token is modelled abstractly: `sigValid` folds "well-formed and
signature-valid" into one flag (a malformed or tampered token makes
`jwt.verify` throw `JsonWebTokenError`), `expired` makes it throw
`TokenExpiredError` (a subclass of `JsonWebTokenError`).  `userId` and
`username` are the decoded payload fields. -/

structure Token where
  sigValid : Bool
  expired : Bool
  userId : String
  username : String
deriving Repr, DecidableEq

/-- `jwt.verify`: succeeds with the decoded payload exactly when the token is
well-formed, signature-valid and not expired. -/
def jwtVerify (t : Token) : Option (String × String) :=
  if t.sigValid && !t.expired then some (t.userId, t.username) else none

/-- The socket.io handshake middleware (`SocketService.setupMiddleware`,
`part_007` lines 47–63): missing token or failed `jwt.verify` refuse the
handshake with `next(Error)`; on success it attaches `userId`/`username` to
the socket.  It performs no lookup of the user in the persistence layer. -/
def socketAuth (token : Option Token) : Except String (String × String) :=
  match token with
  | none => .error "Authentication token required"
  | some t =>
      match jwtVerify t with
      | none => .error "Invalid authentication token"
      | some p => .ok p

/-- Outcome of the HTTP authentication middleware: either a rejection with an
HTTP status and message, or the `req.user` payload attached for downstream
handlers. -/
inductive AuthOutcome
  | reject (status : Nat) (message : String)
  | ok (userId username email : String)
deriving Repr, DecidableEq

/-- The HTTP `authenticateToken` middleware (`part_012`): missing token →
401 "Access token required"; unconfigured secret → 500; failed `jwt.verify`
→ 401 "Invalid token"; decoded user id absent from the user collection →
401 "User not found"; otherwise `req.user` is set from the fetched user. -/
def authenticateToken (users : List User) (secretConfigured : Bool)
    (token : Option Token) : AuthOutcome :=
  match token with
  | none => .reject 401 "Access token required"
  | some t =>
      if secretConfigured then
        match jwtVerify t with
        | none => .reject 401 "Invalid token"
        | some (uid, _) =>
            match findUser users uid with
            | none => .reject 401 "User not found"
            | some u => .ok u.id u.username u.email
      else .reject 500 "JWT secret not configured"

/-! ## Effects

One constructor per external call the embedded code performs, recorded in
program order.  `ok` flags record whether the external collaborator accepted
the call (the attempt itself is always recorded). -/

inductive Effect
  /-- `message.save()` on the Message model (`part_006`). -/
  | saveMessage (roomId content senderId : String) (ok : Bool)
  /-- `io.to(roomId).emit("new_message", ...)` via
  `SocketService.emitToRoom` (`part_007` lines 195–199): whole room group. -/
  | newMessageToRoom (roomId content messageType senderId : String)
  /-- `socket.to(roomId).emit("new_message", ...)` from the sender's socket
  (`part_007` lines 120–131): room group minus the sender's socket. -/
  | newMessageFrom (senderSid roomId content messageType : String)
  /-- `socket.to(roomId).emit(event, ...)` for `user_joined`, `user_left`
  and `user_typing`. -/
  | broadcastFrom (senderSid roomId event : String)
  /-- `socket.emit(event, ...)` to a single socket (the `error` event). -/
  | emitToSocket (sid event : String)
  /-- `redisClient.publish(channel, ...)`. -/
  | redisPublish (channel : String) (ok : Bool)
  /-- `rabbitMQClient.publishToQueue(queue, ...)`. -/
  | queuePublish (queue : String) (ok : Bool)
  /-- `client.setEx("user:" ++ uid ++ ":online", 300, v)` in
  `updateUserOnlineStatus`. -/
  | redisSetEx (key value : String)
  /-- `redisClient.publish("user_status_change", {userId, isOnline, ...})`
  in `updateUserOnlineStatus` (`part_007` lines 177–192). -/
  | statusPublish (userId : String) (isOnline : Bool)
deriving Repr, DecidableEq

/-- The socket ids currently subscribed to a room's broadcast group;
`groups` is the broadcast-group membership table as (roomId, socketId)
pairs. -/
def socketsInRoom (groups : List (String × String)) (roomId : String) :
    List String :=
  (groups.filter (fun p => p.1 == roomId)).map (fun p => p.2)

/-- The socket ids an effect is delivered to, given the broadcast-group
table: `io.to(room)` reaches the whole group, `socket.to(room)` reaches the
group minus the sender's socket, `socket.emit` reaches one socket. -/
def recipientsOf (groups : List (String × String)) : Effect → List String
  | .newMessageToRoom roomId _ _ _ => socketsInRoom groups roomId
  | .newMessageFrom sid roomId _ _ =>
      (socketsInRoom groups roomId).filter (fun x => x != sid)
  | .broadcastFrom sid roomId _ =>
      (socketsInRoom groups roomId).filter (fun x => x != sid)
  | .emitToSocket sid _ => [sid]
  | _ => []

/-! ## MessageService (`part_006`) and the HTTP message route -/

/-- The request body of `POST /messages` (`CreateMessageDto`):
`messageType` is optional and defaults to `"text"` in the Message schema. -/
structure CreateMessageDto where
  room : String
  content : String
  messageType : Option String
deriving Repr, DecidableEq

/-- `data.messageType || "text"` / the Message schema default. -/
def resolveType (mt : Option String) : String := mt.getD "text"

/-- The message document produced by `message.save()`: the persisted fields
relevant here (id assignment and timestamps belong to the store). -/
structure SavedMessage where
  room : String
  content : String
  messageType : String
  sender : String
deriving Repr, DecidableEq

/-- The errors `sendMessage` and its route can produce: the two explicit
`throw new Error(...)` sites, a rejected `message.save()`, and the
express-validator rejection on the route. -/
inductive SendError
  | roomNotFound
  | notMember
  | persistenceFailure
  | validationFailed
deriving Repr, DecidableEq

/-- The `error.message` strings of the two explicit throw sites in
`MessageService.sendMessage`; the other two cases carry no fixed string
(`persistenceFailure` surfaces the driver's message, `validationFailed` is a
400 response body produced before the service runs). -/
def SendError.thrownMessage : SendError → Option String
  | .roomNotFound => some "Room not found"
  | .notMember => some "User is not a member of this room"
  | _ => none

/-- `MessageService.sendMessage` (`part_006` lines 13–46): look up the room,
check sender membership, `message.save()`, then `emitToRoom` the
`new_message` event, then `publishMessageToRedis` (its own try/catch), then
`publishMessageToRabbitMQ` (one try/catch around both queue publishes).
`saveOk`, `redisOk`, `mq1Ok`, `mq2Ok` are the external collaborators'
responses to the save, the pub/sub publish, and the two queue publishes. -/
def MessageService.sendMessage (db : List Room)
    (saveOk redisOk mq1Ok mq2Ok : Bool)
    (messageData : CreateMessageDto) (senderId : String) :
    Except SendError SavedMessage × List Effect :=
  match findRoom db messageData.room with
  | none => (.error .roomNotFound, [])
  | some room =>
      if senderId ∈ room.members then
        if saveOk then
          let msg : SavedMessage :=
            ⟨messageData.room, messageData.content,
             resolveType messageData.messageType, senderId⟩
          (.ok msg,
           Effect.saveMessage messageData.room messageData.content senderId
               true
             :: Effect.newMessageToRoom messageData.room messageData.content
                  (resolveType messageData.messageType) senderId
             :: Effect.redisPublish ("room:" ++ messageData.room) redisOk
             :: (if mq1Ok then
                   [Effect.queuePublish "message_processing" true,
                    Effect.queuePublish "message_logging" mq2Ok]
                 else [Effect.queuePublish "message_processing" false]))
        else
          (.error .persistenceFailure,
           [Effect.saveMessage messageData.room messageData.content senderId
              false])
      else (.error .notMember, [])

/-- The `trim` sanitizer: strip leading and trailing whitespace (a
structural-recursion rendering of `String.trim`). -/
def strTrim (s : String) : String :=
  String.mk
    (((s.data.dropWhile Char.isWhitespace).reverse.dropWhile
        Char.isWhitespace).reverse)

/-- express-validator `isMongoId`: a 24-character hex string. -/
def isMongoId (s : String) : Bool :=
  s.length == 24 &&
    s.data.all (fun c =>
      c.isDigit || ('a' ≤ c && c ≤ 'f') || ('A' ≤ c && c ≤ 'F'))

/-- `sendMessageValidation` (`validators/index.ts` lines 136–150): `content`
length within 1–2000 (checked before the `trim` sanitizer runs), `room` a
Mongo id, `messageType`, when present, one of text/image/file. -/
def sendMessageValidationPasses (dto : CreateMessageDto) : Bool :=
  (1 ≤ dto.content.length && dto.content.length ≤ 2000) &&
    isMongoId dto.room &&
    (match dto.messageType with
     | none => true
     | some m => m == "text" || m == "image" || m == "file")

/-- The `POST /messages` pipeline after `authenticateToken`
(`messageRoutes.ts` line 53): `sendMessageValidation` +
`handleValidationErrors` reject with a 400 before the controller runs, so no
external call is made; otherwise the controller invokes
`MessageService.sendMessage` with the `trim`med content. -/
def postMessage (db : List Room) (saveOk redisOk mq1Ok mq2Ok : Bool)
    (dto : CreateMessageDto) (senderId : String) :
    Except SendError SavedMessage × List Effect :=
  if sendMessageValidationPasses dto then
    MessageService.sendMessage db saveOk redisOk mq1Ok mq2Ok
      { dto with content := strTrim dto.content } senderId
  else (.error .validationFailed, [])

/-- The socket `send_message` handler (`part_007` lines 104–137): publish
the raw payload to the `message_processing` queue, then
`socket.to(roomId).emit("new_message", ...)`.  No validation, no membership
check, no persistence; a throw inside the try block (the queue publish
failing) skips the broadcast and emits an `error` event to the sender. -/
def socketSendMessage (sid _userId roomId content : String)
    (messageType : Option String) (mqOk : Bool) : List Effect :=
  if mqOk then
    [Effect.queuePublish "message_processing" true,
     Effect.newMessageFrom sid roomId content (resolveType messageType)]
  else
    [Effect.queuePublish "message_processing" false,
     Effect.emitToSocket sid "error"]

/-! ## RoomService (`roomService.ts`) -/

/-- The Room schema's pre-save hook (`part_014` lines 37–42): on save, the
owner is appended to `members` when absent. -/
def presaveHook (room : Room) : Room :=
  if room.owner ∈ room.members then room
  else { room with members := room.members ++ [room.owner] }

/-- Replace the stored document for `room.id` (the effect of
`room.save()` on the collection). -/
def saveRoom (db : List Room) (room : Room) : List Room :=
  db.map (fun r => if r.id == room.id then room else r)

/-- `RoomService.joinRoom` (`roomService.ts` lines 40–58): fail when the
room is absent, fail when the user is already a member, otherwise push the
user onto `members` and save.  The room's `isPrivate` flag is never
consulted.  Returns the saved room and the updated collection. -/
def RoomService.joinRoom (db : List Room) (roomId userId : String) :
    Except String (Room × List Room) :=
  match findRoom db roomId with
  | none => .error "Room not found"
  | some room =>
      if userId ∈ room.members then
        .error "User is already a member of this room"
      else
        let saved := presaveHook { room with members := room.members ++ [userId] }
        .ok (saved, saveRoom db saved)

/-! ## The real-time layer as a state machine

`SocketService.setupEventHandlers` (`part_007` lines 66–166).  A state holds
the live authenticated connections, the `connectedUsers` registry, the
broadcast-group membership table (socket.io's room table) and the log of
external effects, oldest first. -/

/-- A live connection: handlers only ever run on sockets the middleware
admitted, with `userId`/`username` attached. -/
structure SocketCtx where
  sid : String
  userId : String
  username : String
deriving Repr, DecidableEq

structure RtState where
  sockets : List SocketCtx
  connectedUsers : List (String × String)
  groups : List (String × String)
  log : List Effect
deriving Repr, DecidableEq

def rtInit : RtState := ⟨[], [], [], []⟩

/-- The client-to-server events of the real-time layer that touch the
registry or the group table. -/
inductive RtEvent
  | connect (sid : String) (token : Option Token)
  | joinRoom (sid roomId : String)
  | leaveRoom (sid roomId : String)
  | disconnect (sid : String)
deriving Repr, DecidableEq

/-- The `updateUserOnlineStatus` effects (`part_007` lines 177–192): a
`setEx` on the `user:{id}:online` key and a publish on the
`user_status_change` channel, called unconditionally with the socket's
userId; its own try/catch swallows failures. -/
def onlineStatusEffects (userId : String) (isOnline : Bool) : List Effect :=
  [Effect.redisSetEx ("user:" ++ userId ++ ":online")
     (if isOnline then "1" else "0"),
   Effect.statusPublish userId isOnline]

/-- One step of the real-time layer:

* `connect`: the handshake middleware (`socketAuth`) refuses the connection
  outright on failure; on success the connection handler stores the
  registry entry (`connectedUsers.set`) and fires the online-status update.
* `joinRoom`: `socket.join(roomId)` then `user_joined` to the group minus
  the sender — no membership check against the room collection.
* `leaveRoom`: `socket.leave(roomId)` then `user_left` to the group.
* `disconnect`: socket.io removes the socket from every group; the handler
  deletes the registry entry for the socket's userId (whatever socket that
  entry currently points to) and unconditionally fires the offline-status
  update. -/
def rtStep (s : RtState) (e : RtEvent) : RtState :=
  match e with
  | .connect sid token =>
      match socketAuth token with
      | .error _ => s
      | .ok (uid, uname) =>
          { s with
            sockets := s.sockets ++ [⟨sid, uid, uname⟩],
            connectedUsers := mapSet s.connectedUsers uid sid,
            log := s.log ++ onlineStatusEffects uid true }
  | .joinRoom sid roomId =>
      match s.sockets.find? (fun c => c.sid == sid) with
      | none => s
      | some _ =>
          { s with
            groups :=
              if (roomId, sid) ∈ s.groups then s.groups
              else s.groups ++ [(roomId, sid)],
            log := s.log ++ [Effect.broadcastFrom sid roomId "user_joined"] }
  | .leaveRoom sid roomId =>
      match s.sockets.find? (fun c => c.sid == sid) with
      | none => s
      | some _ =>
          { s with
            groups := s.groups.filter (fun p => p ≠ (roomId, sid)),
            log := s.log ++ [Effect.broadcastFrom sid roomId "user_left"] }
  | .disconnect sid =>
      match s.sockets.find? (fun c => c.sid == sid) with
      | none => s
      | some ctx =>
          { s with
            sockets := s.sockets.filter (fun c => c.sid ≠ sid),
            groups := s.groups.filter (fun p => p.2 ≠ sid),
            connectedUsers := mapDelete s.connectedUsers ctx.userId,
            log := s.log ++ onlineStatusEffects ctx.userId false }

/-- Run the real-time layer from the empty initial state. -/
def rtRun (events : List RtEvent) : RtState := events.foldl rtStep rtInit

/-- `e` is a handshake that the Authentication Gate accepted for exactly the
identity bound to `ctx`. -/
def validatedConnect (e : RtEvent) (ctx : SocketCtx) : Prop :=
  ∃ tok, e = RtEvent.connect ctx.sid tok ∧
    socketAuth tok = .ok (ctx.userId, ctx.username)

/-- Every subscribed socket id belongs to a live connection. -/
def groupsLive (s : RtState) : Prop :=
  ∀ p ∈ s.groups, ∃ ctx ∈ s.sockets, ctx.sid = p.2

theorem rtStep_sockets_mem {s : RtState} {e : RtEvent} {ctx : SocketCtx}
    (hmem : ctx ∈ (rtStep s e).sockets) :
    ctx ∈ s.sockets ∨ validatedConnect e ctx := by
  cases e with
  | connect sid token =>
      cases h : socketAuth token with
      | error msg =>
          simp [rtStep, h] at hmem
          exact Or.inl hmem
      | ok p =>
          obtain ⟨uid, uname⟩ := p
          simp [rtStep, h] at hmem
          rcases hmem with hm | hm
          · exact Or.inl hm
          · subst hm
            exact Or.inr ⟨token, rfl, h⟩
  | joinRoom sid roomId =>
      cases h : s.sockets.find? (fun c => c.sid == sid) with
      | none =>
          simp [rtStep, h] at hmem
          exact Or.inl hmem
      | some c =>
          simp [rtStep, h] at hmem
          exact Or.inl hmem
  | leaveRoom sid roomId =>
      cases h : s.sockets.find? (fun c => c.sid == sid) with
      | none =>
          simp [rtStep, h] at hmem
          exact Or.inl hmem
      | some c =>
          simp [rtStep, h] at hmem
          exact Or.inl hmem
  | disconnect sid =>
      cases h : s.sockets.find? (fun c => c.sid == sid) with
      | none =>
          simp [rtStep, h] at hmem
          exact Or.inl hmem
      | some c =>
          simp [rtStep, h] at hmem
          exact Or.inl hmem.1

theorem rtStep_groupsLive {s : RtState} {e : RtEvent} (h : groupsLive s) :
    groupsLive (rtStep s e) := by
  cases e with
  | connect sid token =>
      cases ha : socketAuth token with
      | error msg => simpa [rtStep, ha] using h
      | ok p =>
          obtain ⟨uid, uname⟩ := p
          intro q hq
          simp [rtStep, ha] at hq ⊢
          obtain ⟨ctx, hc, hs⟩ := h q hq
          exact ⟨ctx, Or.inl hc, hs⟩
  | joinRoom sid roomId =>
      cases hf : s.sockets.find? (fun c => c.sid == sid) with
      | none => simpa [rtStep, hf] using h
      | some c =>
          have hcm : c ∈ s.sockets := List.mem_of_find?_eq_some hf
          have hcs : c.sid = sid := by
            have := List.find?_some hf
            simpa using this
          intro q hq
          simp [rtStep, hf] at hq ⊢
          by_cases hin : (roomId, sid) ∈ s.groups
          · simp [hin] at hq
            obtain ⟨ctx, hc, hs⟩ := h q hq
            exact ⟨ctx, hc, hs⟩
          · simp [hin] at hq
            rcases hq with hq | hq
            · obtain ⟨ctx, hc, hs⟩ := h q hq
              exact ⟨ctx, hc, hs⟩
            · subst hq
              exact ⟨c, hcm, hcs⟩
  | leaveRoom sid roomId =>
      cases hf : s.sockets.find? (fun c => c.sid == sid) with
      | none => simpa [rtStep, hf] using h
      | some c =>
          intro q hq
          simp [rtStep, hf] at hq ⊢
          obtain ⟨ctx, hc, hs⟩ := h q hq.1
          exact ⟨ctx, hc, hs⟩
  | disconnect sid =>
      cases hf : s.sockets.find? (fun c => c.sid == sid) with
      | none => simpa [rtStep, hf] using h
      | some c =>
          intro q hq
          simp [rtStep, hf] at hq ⊢
          obtain ⟨hqm, hqne⟩ := hq
          obtain ⟨ctx, hc, hs⟩ := h q hqm
          refine ⟨ctx, ⟨hc, ?_⟩, hs⟩
          rw [hs]
          exact hqne

theorem foldl_groupsLive (evs : List RtEvent) :
    ∀ s : RtState, groupsLive s → groupsLive (evs.foldl rtStep s) := by
  induction evs with
  | nil => intro s h; exact h
  | cons e t ih => intro s h; exact ih (rtStep s e) (rtStep_groupsLive h)

theorem rtRun_groupsLive (evs : List RtEvent) : groupsLive (rtRun evs) := by
  apply foldl_groupsLive
  intro p hp
  simp [rtInit] at hp

theorem foldl_sockets_validated (evs : List RtEvent) :
    ∀ (s : RtState) (ctx : SocketCtx), ctx ∈ (evs.foldl rtStep s).sockets →
      ctx ∈ s.sockets ∨ ∃ e ∈ evs, validatedConnect e ctx := by
  induction evs with
  | nil => intro s ctx h; exact Or.inl h
  | cons e t ih =>
      intro s ctx h
      rcases ih (rtStep s e) ctx h with h1 | h2
      · rcases rtStep_sockets_mem h1 with h3 | h4
        · exact Or.inl h3
        · exact Or.inr ⟨e, List.mem_cons_self e t, h4⟩
      · obtain ⟨e', he', hv⟩ := h2
        exact Or.inr ⟨e', List.mem_cons_of_mem e he', hv⟩

/-! ## Claim C1: subscriptions, the gate, and room membership -/

/-- A valid token for identity `u1`. -/
def c1Token : Token := ⟨true, false, "u1", "alice"⟩

/-- A private room owned by `u2` whose only member is `u2`. -/
def c1Db : List Room := [⟨"room1", "secret", true, "u2", ["u2"]⟩]

/-- `u1` authenticates and then issues `join_room` for `room1`. -/
def c1Events : List RtEvent :=
  [.connect "s1" (some c1Token), .joinRoom "s1" "room1"]

/-- C1 counterexample: the `join_room` handler subscribes the connection
without consulting the persistence layer.  Identity `u1` (socket `s1`)
passes the gate and joins `room1`, a private room whose persisted member
list is `[u2]`: the reachable state has `s1` subscribed to `room1`'s group
although `u1` is not a member and did not just join. -/
theorem c1_subscribed_without_membership :
    ("room1", "s1") ∈ (rtRun c1Events).groups ∧
    (rtRun c1Events).sockets = [⟨"s1", "u1", "alice"⟩] ∧
    findRoom c1Db "room1" = some ⟨"room1", "secret", true, "u2", ["u2"]⟩ ∧
    "u1" ∉ (["u2"] : List String) := by decide

/-- C1 (amended): in every reachable state of the real-time layer, a
connection is subscribed to a room group only if the Authentication Gate
validated its identity at handshake; no synchronous membership confirmation
against the persistence layer precedes the subscription. -/
theorem c1_subscribed_only_after_gate (evs : List RtEvent)
    (roomId sid : String) (h : (roomId, sid) ∈ (rtRun evs).groups) :
    ∃ ctx, ctx.sid = sid ∧ ctx ∈ (rtRun evs).sockets ∧
      ∃ e ∈ evs, validatedConnect e ctx := by
  obtain ⟨ctx, hc, hs⟩ := rtRun_groupsLive evs (roomId, sid) h
  rcases foldl_sockets_validated evs rtInit ctx hc with h1 | h2
  · simp [rtInit] at h1
  · exact ⟨ctx, hs, hc, h2⟩

theorem c1_subscribed_only_after_gate_witness :
    ("room1", "s1") ∈ (rtRun c1Events).groups ∧
    (∃ ctx, ctx.sid = "s1" ∧ ctx ∈ (rtRun c1Events).sockets ∧
      ∃ e ∈ c1Events, validatedConnect e ctx) :=
  ⟨by decide, c1_subscribed_only_after_gate c1Events "room1" "s1" (by decide)⟩

/-! ## Claim C6: the session registry is last-writer-wins -/

/-- C6: `register(id, h1)` then `register(id, h2)` leaves `lookup(id) = h2`;
a subsequent `unregister(id)` leaves `lookup(id) = none`; neither operation
changes the lookup of any other identity.  `register`/`unregister`/`lookup`
are `connectedUsers.set`/`.delete`/`.get` in `SocketService`. -/
theorem c6_registry_last_writer_wins (m : List (String × String))
    (id h1 h2 id' : String) (hne : id' ≠ id) :
    mapGet (mapSet (mapSet m id h1) id h2) id = some h2 ∧
    mapGet (mapDelete (mapSet (mapSet m id h1) id h2) id) id = none ∧
    mapGet (mapSet (mapSet m id h1) id h2) id' = mapGet m id' ∧
    mapGet (mapDelete (mapSet (mapSet m id h1) id h2) id) id' = mapGet m id' := by
  simp [mapGet_mapSet, mapGet_mapDelete, hne]

theorem c6_registry_last_writer_wins_witness :
    ("ux" : String) ≠ "u1" ∧
    (mapGet (mapSet (mapSet [("ux", "s9")] "u1" "h1") "u1" "h2") "u1"
        = some "h2" ∧
      mapGet (mapDelete (mapSet (mapSet [("ux", "s9")] "u1" "h1") "u1" "h2")
          "u1") "u1" = none ∧
      mapGet (mapSet (mapSet [("ux", "s9")] "u1" "h1") "u1" "h2") "ux"
        = mapGet [("ux", "s9")] "ux" ∧
      mapGet (mapDelete (mapSet (mapSet [("ux", "s9")] "u1" "h1") "u1" "h2")
          "u1") "ux" = mapGet [("ux", "s9")] "ux") :=
  ⟨by decide,
   c6_registry_last_writer_wins [("ux", "s9")] "u1" "h1" "h2" "ux" (by decide)⟩

/-! ## Claim C7: unregister on an absent identity -/

/-- Identity `u1` connects twice (the second registration displaces the
first), then socket `s1` disconnects: its handler deletes the registry entry
for `u1`, leaving `u1` unregistered while socket `s2` is still live. -/
def c7Events : List RtEvent :=
  [.connect "s1" (some c1Token), .connect "s2" (some c1Token),
   .disconnect "s1"]

/-- C7 counterexample: in the reached state identity `u1` has no registry
entry, yet the disconnect of `s2` (an unregister of the absent `u1`) still
appends the offline-status update — the `user_status_change` publish with
`isOnline = false` — to the effect log, because the disconnect handler calls
`updateUserOnlineStatus` unconditionally. -/
theorem c7_unregister_absent_still_broadcasts :
    mapGet (rtRun c7Events).connectedUsers "u1" = none ∧
    (rtStep (rtRun c7Events) (.disconnect "s2")).log =
      (rtRun c7Events).log ++
        [Effect.redisSetEx "user:u1:online" "0",
         Effect.statusPublish "u1" false] := by decide

/-- C7 (amended): unregistering an identity with no current registry entry
raises no error and leaves the registry unchanged, but the disconnect
handler still publishes the offline presence change for the socket's
identity: `updateUserOnlineStatus` is called unconditionally. -/
theorem c7_unregister_absent_noop_except_broadcast (s : RtState)
    (sid : String) (ctx : SocketCtx)
    (hf : s.sockets.find? (fun c => c.sid == sid) = some ctx)
    (habs : mapHas s.connectedUsers ctx.userId = false) :
    (rtStep s (.disconnect sid)).connectedUsers = s.connectedUsers ∧
    (rtStep s (.disconnect sid)).log =
      s.log ++ onlineStatusEffects ctx.userId false := by
  simp [rtStep, hf, mapDelete_of_not_has habs]

theorem c7_unregister_absent_noop_except_broadcast_witness :
    (rtRun c7Events).sockets.find? (fun c => c.sid == "s2")
        = some ⟨"s2", "u1", "alice"⟩ ∧
    mapHas (rtRun c7Events).connectedUsers "u1" = false ∧
    ((rtStep (rtRun c7Events) (.disconnect "s2")).connectedUsers
        = (rtRun c7Events).connectedUsers ∧
      (rtStep (rtRun c7Events) (.disconnect "s2")).log
        = (rtRun c7Events).log ++ onlineStatusEffects "u1" false) :=
  ⟨by decide, by decide,
   c7_unregister_absent_noop_except_broadcast (rtRun c7Events) "s2"
     ⟨"s2", "u1", "alice"⟩ (by decide) (by decide)⟩

/-! ## Claim C2: the new_message broadcast and the sender's connection -/

/-- A room id in Mongo ObjectId format (24 hex characters), so the HTTP
validator accepts it. -/
def c2RoomId : String := "aaaaaaaaaaaaaaaaaaaaaaaa"

def c2Db : List Room := [⟨c2RoomId, "general", false, "u1", ["u1", "u2"]⟩]

/-- `u1` (socket `s1`) and `u2` (socket `s2`) authenticate and both join the
room's broadcast group. -/
def c2Events : List RtEvent :=
  [.connect "s1" (some ⟨true, false, "u1", "alice"⟩),
   .connect "s2" (some ⟨true, false, "u2", "bob"⟩),
   .joinRoom "s1" c2RoomId, .joinRoom "s2" c2RoomId]

def c2Dto : CreateMessageDto := ⟨c2RoomId, "hi", none⟩

/-- C2 counterexample: a message sent by `u1` over HTTP `POST /messages`
completes successfully and broadcasts `new_message` through
`SocketService.emitToRoom`, which uses `io.to(roomId).emit` — the whole
room group.  `u1`'s own socket `s1` is subscribed to the group, so `s1` is
among the recipients of its own `new_message` broadcast. -/
theorem c2_http_send_echoes_to_sender :
    (postMessage c2Db true true true true c2Dto "u1").1 =
      .ok ⟨c2RoomId, "hi", "text", "u1"⟩ ∧
    Effect.newMessageToRoom c2RoomId "hi" "text" "u1" ∈
      (postMessage c2Db true true true true c2Dto "u1").2 ∧
    mapGet (rtRun c2Events).connectedUsers "u1" = some "s1" ∧
    "s1" ∈ recipientsOf (rtRun c2Events).groups
      (Effect.newMessageToRoom c2RoomId "hi" "text" "u1") := by decide

/-- C2 (amended): the real-time `send_message` path broadcasts via
`socket.to(roomId)` and never delivers the `new_message` event to the
sender's own socket; the HTTP path broadcasts via `io.to(roomId)` and
delivers to every socket subscribed to the room group, the sender's
included whenever it is subscribed. -/
theorem c2_echo_semantics (groups : List (String × String))
    (sid uid roomId content : String) (mt : Option String) :
    socketSendMessage sid uid roomId content mt true =
      [Effect.queuePublish "message_processing" true,
       Effect.newMessageFrom sid roomId content (resolveType mt)] ∧
    sid ∉ recipientsOf groups
      (Effect.newMessageFrom sid roomId content (resolveType mt)) ∧
    ((roomId, sid) ∈ groups →
      sid ∈ recipientsOf groups
        (Effect.newMessageToRoom roomId content (resolveType mt) uid)) := by
  refine ⟨rfl, ?_, ?_⟩
  · intro h
    simp [recipientsOf] at h
  · intro h
    simp [recipientsOf, socketsInRoom, List.mem_map, List.mem_filter]
    exact h

theorem c2_echo_semantics_witness :
    ("r1", "s1") ∈ ([("r1", "s1")] : List (String × String)) ∧
    socketSendMessage "s1" "u1" "r1" "hi" none true =
      [Effect.queuePublish "message_processing" true,
       Effect.newMessageFrom "s1" "r1" "hi" (resolveType none)] ∧
    "s1" ∉ recipientsOf [("r1", "s1")]
      (Effect.newMessageFrom "s1" "r1" "hi" (resolveType none)) ∧
    "s1" ∈ recipientsOf [("r1", "s1")]
      (Effect.newMessageToRoom "r1" "hi" (resolveType none) "u1") :=
  ⟨by decide,
   (c2_echo_semantics [("r1", "s1")] "s1" "u1" "r1" "hi" none).1,
   (c2_echo_semantics [("r1", "s1")] "s1" "u1" "r1" "hi" none).2.1,
   (c2_echo_semantics [("r1", "s1")] "s1" "u1" "r1" "hi" none).2.2 (by decide)⟩

/-! ## Claim C3: authentication failure modes on both paths -/

/-- A signature-valid, unexpired token for identity `ghost`, which exists in
no user collection. -/
def c3Token : Token := ⟨true, false, "ghost", "casper"⟩

/-- C3 counterexample: with an empty user collection, the HTTP middleware
rejects the valid token of the deleted identity with 401 "User not found",
but the socket handshake middleware accepts the same token — it never
consults the persistence layer, so the connection is admitted for an
identity that no longer exists. -/
theorem c3_handshake_skips_existence_check :
    authenticateToken [] true (some c3Token) = .reject 401 "User not found" ∧
    socketAuth (some c3Token) = .ok ("ghost", "casper") := by decide

/-- C3 (amended): on the HTTP path, authentication rejects a missing token,
a malformed/signature-invalid/expired token, and a valid token whose
identity is absent from the persistence layer, attaching the stored
identity on success; the real-time handshake refuses a missing or invalid
token (no degraded anonymous connection) but performs no existence check
and accepts any verified token with the token's own identity attached. -/
theorem c3_auth_gate_contract (users : List User) (tok : Option Token) :
    (tok = none →
      authenticateToken users true tok = .reject 401 "Access token required" ∧
      socketAuth tok = .error "Authentication token required") ∧
    (∀ t, tok = some t → jwtVerify t = none →
      authenticateToken users true tok = .reject 401 "Invalid token" ∧
      socketAuth tok = .error "Invalid authentication token") ∧
    (∀ t uid uname, tok = some t → jwtVerify t = some (uid, uname) →
      socketAuth tok = .ok (uid, uname) ∧
      (findUser users uid = none →
        authenticateToken users true tok = .reject 401 "User not found") ∧
      (∀ u, findUser users uid = some u →
        authenticateToken users true tok = .ok u.id u.username u.email)) := by
  refine ⟨?_, ?_, ?_⟩
  · rintro rfl
    exact ⟨rfl, rfl⟩
  · rintro t rfl hv
    exact ⟨by simp [authenticateToken, hv], by simp [socketAuth, hv]⟩
  · rintro t uid uname rfl hv
    refine ⟨by simp [socketAuth, hv], ?_, ?_⟩
    · intro hu
      simp [authenticateToken, hv, hu]
    · intro u hu
      simp [authenticateToken, hv, hu]

def c3User : User := ⟨"u1", "alice", "alice@example.com"⟩

def c3GoodToken : Token := ⟨true, false, "u1", "alice"⟩

theorem c3_auth_gate_contract_witness :
    jwtVerify c3GoodToken = some ("u1", "alice") ∧
    findUser [c3User] "u1" = some c3User ∧
    socketAuth (some c3GoodToken) = .ok ("u1", "alice") ∧
    authenticateToken [c3User] true (some c3GoodToken) =
      .ok "u1" "alice" "alice@example.com" :=
  ⟨by decide, by decide,
   ((c3_auth_gate_contract [c3User] (some c3GoodToken)).2.2 c3GoodToken "u1"
       "alice" rfl (by decide)).1,
   ((c3_auth_gate_contract [c3User] (some c3GoodToken)).2.2 c3GoodToken "u1"
       "alice" rfl (by decide)).2.2 c3User (by decide)⟩

/-! ## Claim C4: content/messageType validation on message sends -/

/-- A content string of 2001 characters. -/
def c4Content : String := String.mk (List.replicate 2001 'a')

/-- C4 counterexample: the socket `send_message` handler performs no
validation.  A send with 2001 characters of content is published to the
processing queue and broadcast as `new_message` — no `ValidationError`, and
the effects do not depend on the content's length. -/
theorem c4_socket_send_skips_validation :
    c4Content.length = 2001 ∧
    socketSendMessage "s1" "u1" "r1" c4Content none true =
      [Effect.queuePublish "message_processing" true,
       Effect.newMessageFrom "s1" "r1" c4Content "text"] := by
  constructor
  · have h : c4Content.length = (List.replicate 2001 'a').length := rfl
    rw [h, List.length_replicate]
  · rfl

/-- C4 (amended): on the HTTP `POST /messages` path, a content length
outside 1–2000 or a messageType outside text/image/file fails validation
with a 400 before the controller runs, so no persistence call is made and
no broadcast is emitted; the real-time `send_message` path performs no such
validation. -/
theorem c4_http_validation (db : List Room)
    (saveOk redisOk mq1Ok mq2Ok : Bool) (dto : CreateMessageDto)
    (senderId : String) (h : sendMessageValidationPasses dto = false) :
    postMessage db saveOk redisOk mq1Ok mq2Ok dto senderId =
      (.error .validationFailed, []) := by
  simp [postMessage, h]

theorem c4_http_validation_witness :
    sendMessageValidationPasses ⟨"aaaaaaaaaaaaaaaaaaaaaaaa", c4Content, none⟩
        = false ∧
    postMessage [] true true true true
        ⟨"aaaaaaaaaaaaaaaaaaaaaaaa", c4Content, none⟩ "u1" =
      (.error .validationFailed, []) := by
  have hF : sendMessageValidationPasses
      ⟨"aaaaaaaaaaaaaaaaaaaaaaaa", c4Content, none⟩ = false := by
    have h : c4Content.length = (List.replicate 2001 'a').length := rfl
    simp [sendMessageValidationPasses, h, List.length_replicate]
  exact ⟨hF, c4_http_validation [] true true true true
    ⟨"aaaaaaaaaaaaaaaaaaaaaaaa", c4Content, none⟩ "u1" hF⟩

/-! ## Claim C5: broadcast-after-persist ordering -/

/-- C5 counterexample: the socket `send_message` handler performs no
persistence write at all, yet publishes to the durable queue and broadcasts
`new_message` — its effect trace contains no `saveMessage` effect. -/
theorem c5_socket_send_broadcasts_without_persist :
    socketSendMessage "s1" "u1" "r1" "hi" none true =
      [Effect.queuePublish "message_processing" true,
       Effect.newMessageFrom "s1" "r1" "hi" "text"] ∧
    (socketSendMessage "s1" "u1" "r1" "hi" none true).all
        (fun e =>
          match e with
          | Effect.saveMessage _ _ _ _ => false
          | _ => true) = true := by decide

/-- C5 (amended): on the HTTP message-send path, the persistence write
completes before any broadcast or publish: on save failure the operation
aborts with a persistence error and its effect trace holds only the failed
save — no `new_message` broadcast, no pub/sub publish, no queue publish;
on save success the successful save is the first effect, strictly before
the broadcast and both publish legs.  (The real-time path performs no
persistence write at all, per the counterexample.) -/
theorem c5_persist_before_broadcast (db : List Room)
    (redisOk mq1Ok mq2Ok : Bool) (dto : CreateMessageDto)
    (senderId : String) (room : Room)
    (hroom : findRoom db dto.room = some room)
    (hmem : senderId ∈ room.members) :
    MessageService.sendMessage db false redisOk mq1Ok mq2Ok dto senderId =
      (.error .persistenceFailure,
       [Effect.saveMessage dto.room dto.content senderId false]) ∧
    MessageService.sendMessage db true redisOk mq1Ok mq2Ok dto senderId =
      (.ok ⟨dto.room, dto.content, resolveType dto.messageType, senderId⟩,
       Effect.saveMessage dto.room dto.content senderId true
         :: Effect.newMessageToRoom dto.room dto.content
              (resolveType dto.messageType) senderId
         :: Effect.redisPublish ("room:" ++ dto.room) redisOk
         :: (if mq1Ok then
               [Effect.queuePublish "message_processing" true,
                Effect.queuePublish "message_logging" mq2Ok]
             else [Effect.queuePublish "message_processing" false])) := by
  constructor
  · simp [MessageService.sendMessage, hroom, hmem]
  · simp [MessageService.sendMessage, hroom, hmem]

def c5Db : List Room := [⟨"r1", "general", false, "u1", ["u1", "u2"]⟩]

theorem c5_persist_before_broadcast_witness :
    findRoom c5Db "r1" = some ⟨"r1", "general", false, "u1", ["u1", "u2"]⟩ ∧
    "u1" ∈ (⟨"r1", "general", false, "u1", ["u1", "u2"]⟩ : Room).members ∧
    (MessageService.sendMessage c5Db false true true true ⟨"r1", "hi", none⟩
          "u1" =
        (.error .persistenceFailure,
         [Effect.saveMessage "r1" "hi" "u1" false]) ∧
      MessageService.sendMessage c5Db true true true true ⟨"r1", "hi", none⟩
          "u1" =
        (.ok ⟨"r1", "hi", resolveType none, "u1"⟩,
         Effect.saveMessage "r1" "hi" "u1" true
           :: Effect.newMessageToRoom "r1" "hi" (resolveType none) "u1"
           :: Effect.redisPublish ("room:" ++ "r1") true
           :: [Effect.queuePublish "message_processing" true,
               Effect.queuePublish "message_logging" true])) :=
  ⟨by decide, by decide,
   by
     have h := c5_persist_before_broadcast c5Db true true true
       ⟨"r1", "hi", none⟩ "u1" ⟨"r1", "general", false, "u1", ["u1", "u2"]⟩
       (by decide) (by decide)
     simpa using h⟩

/-! ## Claim C8: the HTTP join-room rule -/

/-- A private room owned by `u2`; `u1` is not a member. -/
def c8Db : List Room := [⟨"r1", "secret", true, "u2", ["u2"]⟩]

/-- C8 counterexample: `RoomService.joinRoom` never reads the `isPrivate`
flag.  `u1` joins the private room `r1` of which it is not a member, and
membership is granted and persisted — the claim's "only if the room is
public" restriction does not hold. -/
theorem c8_private_room_join_granted :
    (findRoom c8Db "r1").map Room.isPrivate = some true ∧
    "u1" ∉ (["u2"] : List String) ∧
    RoomService.joinRoom c8Db "r1" "u1" =
      .ok (⟨"r1", "secret", true, "u2", ["u2", "u1"]⟩,
           [⟨"r1", "secret", true, "u2", ["u2", "u1"]⟩]) := by decide

/-- C8 (amended): the HTTP join fails when the room does not exist and when
the caller is already a member; otherwise — regardless of the room's
privacy flag — the user is appended to the room's persisted member list
(the schema's pre-save hook may additionally restore a missing owner) and
the updated room is returned and saved. -/
theorem c8_join_room_contract (db : List Room) (roomId userId : String) :
    (findRoom db roomId = none →
      RoomService.joinRoom db roomId userId = .error "Room not found") ∧
    (∀ room, findRoom db roomId = some room → userId ∈ room.members →
      RoomService.joinRoom db roomId userId =
        .error "User is already a member of this room") ∧
    (∀ room, findRoom db roomId = some room → userId ∉ room.members →
      RoomService.joinRoom db roomId userId =
        .ok (presaveHook { room with members := room.members ++ [userId] },
             saveRoom db
               (presaveHook
                 { room with members := room.members ++ [userId] }))) := by
  refine ⟨?_, ?_, ?_⟩
  · intro h
    simp [RoomService.joinRoom, h]
  · intro room h hm
    simp [RoomService.joinRoom, h, hm]
  · intro room h hm
    simp [RoomService.joinRoom, h, hm]

def c8PublicDb : List Room := [⟨"r2", "general", false, "u2", ["u2"]⟩]

theorem c8_join_room_contract_witness :
    findRoom c8PublicDb "r2" = some ⟨"r2", "general", false, "u2", ["u2"]⟩ ∧
    "u1" ∉ (⟨"r2", "general", false, "u2", ["u2"]⟩ : Room).members ∧
    RoomService.joinRoom c8PublicDb "r2" "u1" =
      .ok (presaveHook
             { (⟨"r2", "general", false, "u2", ["u2"]⟩ : Room) with
               members := ["u2"] ++ ["u1"] },
           saveRoom c8PublicDb
             (presaveHook
               { (⟨"r2", "general", false, "u2", ["u2"]⟩ : Room) with
                 members := ["u2"] ++ ["u1"] })) :=
  ⟨by decide, by decide,
   (c8_join_room_contract c8PublicDb "r2" "u1").2.2
     ⟨"r2", "general", false, "u2", ["u2"]⟩ (by decide) (by decide)⟩

/-! ## Claim C9: publish failures are swallowed after a successful persist -/

/-- C9: once the room is found, the sender is a member and the save
succeeded, the result of `sendMessage` is the persisted message and the
in-process `new_message` broadcast is in the effect trace, for every
combination of pub/sub and queue publish outcomes: both `publishMessageToRedis`
and `publishMessageToRabbitMQ` catch their own errors, so a publish failure
never reaches the caller. -/
theorem c9_publish_failure_swallowed (db : List Room)
    (redisOk mq1Ok mq2Ok : Bool) (dto : CreateMessageDto)
    (senderId : String) (room : Room)
    (hroom : findRoom db dto.room = some room)
    (hmem : senderId ∈ room.members) :
    (MessageService.sendMessage db true redisOk mq1Ok mq2Ok dto senderId).1 =
      .ok ⟨dto.room, dto.content, resolveType dto.messageType, senderId⟩ ∧
    Effect.newMessageToRoom dto.room dto.content
        (resolveType dto.messageType) senderId ∈
      (MessageService.sendMessage db true redisOk mq1Ok mq2Ok dto
          senderId).2 := by
  constructor
  · simp [MessageService.sendMessage, hroom, hmem]
  · simp [MessageService.sendMessage, hroom, hmem]

def c9Db : List Room := [⟨"r1", "general", false, "u1", ["u1", "u2"]⟩]

theorem c9_publish_failure_swallowed_witness :
    findRoom c9Db "r1" = some ⟨"r1", "general", false, "u1", ["u1", "u2"]⟩ ∧
    "u1" ∈ (⟨"r1", "general", false, "u1", ["u1", "u2"]⟩ : Room).members ∧
    ((MessageService.sendMessage c9Db true false false false
          ⟨"r1", "hi", none⟩ "u1").1 =
        .ok ⟨"r1", "hi", resolveType none, "u1"⟩ ∧
      Effect.newMessageToRoom "r1" "hi" (resolveType none) "u1" ∈
        (MessageService.sendMessage c9Db true false false false
            ⟨"r1", "hi", none⟩ "u1").2) :=
  ⟨by decide, by decide,
   c9_publish_failure_swallowed c9Db false false false ⟨"r1", "hi", none⟩
     "u1" ⟨"r1", "general", false, "u1", ["u1", "u2"]⟩ (by decide)
     (by decide)⟩

/-! ## Claim C10: precondition failures on the HTTP send path -/

/-- C10: `sendMessage` fails with the `Room not found` error when the room
id resolves to no room, and with the `User is not a member of this room`
error when the sender is not in the member list; in both cases the effect
trace is empty — no save, no broadcast, no pub/sub publish, no queue
publish. -/
theorem c10_send_message_precondition_failures (db : List Room)
    (saveOk redisOk mq1Ok mq2Ok : Bool) (dto : CreateMessageDto)
    (senderId : String) :
    (findRoom db dto.room = none →
      MessageService.sendMessage db saveOk redisOk mq1Ok mq2Ok dto senderId =
        (.error .roomNotFound, []) ∧
      SendError.thrownMessage .roomNotFound = some "Room not found") ∧
    (∀ room, findRoom db dto.room = some room → senderId ∉ room.members →
      MessageService.sendMessage db saveOk redisOk mq1Ok mq2Ok dto senderId =
        (.error .notMember, []) ∧
      SendError.thrownMessage .notMember =
        some "User is not a member of this room") := by
  constructor
  · intro h
    exact ⟨by simp [MessageService.sendMessage, h], rfl⟩
  · intro room h hm
    exact ⟨by simp [MessageService.sendMessage, h, hm], rfl⟩

def c10Db : List Room := [⟨"r1", "general", false, "u2", ["u2"]⟩]

theorem c10_send_message_precondition_failures_witness :
    findRoom c10Db "nope" = none ∧
    (MessageService.sendMessage c10Db true true true true
          ⟨"nope", "hi", none⟩ "u1" =
        (.error .roomNotFound, []) ∧
      SendError.thrownMessage .roomNotFound = some "Room not found") ∧
    findRoom c10Db "r1" = some ⟨"r1", "general", false, "u2", ["u2"]⟩ ∧
    "u1" ∉ (⟨"r1", "general", false, "u2", ["u2"]⟩ : Room).members ∧
    (MessageService.sendMessage c10Db true true true true
          ⟨"r1", "hi", none⟩ "u1" =
        (.error .notMember, []) ∧
      SendError.thrownMessage .notMember =
        some "User is not a member of this room") :=
  ⟨by decide,
   (c10_send_message_precondition_failures c10Db true true true true
       ⟨"nope", "hi", none⟩ "u1").1 (by decide),
   by decide, by decide,
   (c10_send_message_precondition_failures c10Db true true true true
       ⟨"r1", "hi", none⟩ "u1").2 ⟨"r1", "general", false, "u2", ["u2"]⟩
     (by decide) (by decide)⟩

end Chat
